import Mathlib

/-!
Verification of the `tiny_fail` error-representation library (`src/lib.rs`).

A foreign error (`Box<dyn Error>`) is observed by this library only through
its `Display` rendering, so it is modelled by that rendered `String`.
`Result<T, E>` is modelled by `Except E T` and `Option<T>` by `Option T`.
-/

namespace TinyFail

mutual
/-- The failure type: `struct Fail { msg: Option<String>, cause: Option<FailCause> }`. -/
inductive Fail where
  | mk : Option String → Option FailCause → Fail

/-- `enum FailCause { Error(Box<dyn Error>), Fail(Box<Fail>) }`; the boxed
foreign error is represented by its `Display` text. -/
inductive FailCause where
  | Error : String → FailCause
  | Fail : Fail → FailCause
end

/-- Field accessor for `Fail.msg`. -/
def Fail.msg : Fail → Option String
  | .mk m _ => m

/-- Field accessor for `Fail.cause`. -/
def Fail.cause : Fail → Option FailCause
  | .mk _ c => c

/-- `Fail::new`: `Fail { msg: Some(msg.to_string()), cause: None }`. -/
def Fail.new (msg : String) : Fail :=
  Fail.mk (some msg) none

/-- `Fail::add_msg`: fill the message slot in place when it is empty,
otherwise wrap the whole prior value as the new cause. -/
def Fail.add_msg (f : Fail) (msg : String) : Fail :=
  match f with
  | .mk none cause => .mk (some msg) cause
  | .mk (some s) cause => .mk (some msg) (some (FailCause.Fail (.mk (some s) cause)))

/-- `impl fmt::Display for Fail`: write the message if present; if both a
message and a cause are present write `": "`; then render the cause
(a foreign error by its own text, a nested `Fail` recursively). -/
def Fail.render : Fail → String
  | .mk msg cause =>
    let head := match msg with
      | some m => m
      | none => ""
    let sep := if msg.isSome && cause.isSome then ": " else ""
    let tail := match cause with
      | none => ""
      | some (FailCause.Error e) => e
      | some (FailCause.Fail f) => Fail.render f
    head ++ sep ++ tail

/-- Number of `FailCause.Fail` links below the head of the chain. -/
def Fail.depth : Fail → Nat
  | .mk _ (some (FailCause.Fail f)) => Fail.depth f + 1
  | _ => 0

/-- `impl<E: Error> From<E> for Fail`: `Fail { msg: None, cause: Some(FailCause::Error(Box::new(err))) }`. -/
def Fail.fromError (err : String) : Fail :=
  Fail.mk none (some (FailCause.Error err))

/-- `struct Error(Fail)`: the wrapper that implements `std::error::Error`. -/
structure Error where
  fail : Fail

/-- `Error::as_fail`: `&self.0`. -/
def Error.as_fail (e : Error) : Fail :=
  e.fail

/-- `Error::into_fail`: `self.0`. -/
def Error.into_fail (e : Error) : Fail :=
  e.fail

/-- `impl fmt::Display for Error`: `self.0.fmt(f)`. -/
def Error.render (e : Error) : String :=
  e.fail.render

/-- `impl<T, E: Error> FailExt<T> for Result<T, E>`: on `Err(err)` build
`Fail { msg: Some(msg), cause: Some(FailCause::Error(Box::new(err))) }` in one step. -/
def contextResultErr {T : Type} (r : Except String T) (msg : String) : Except Fail T :=
  match r with
  | .ok t => .ok t
  | .error err => .error (Fail.mk (some msg) (some (FailCause.Error err)))

/-- `impl<T> FailExt<T> for Option<T>`: `self.ok_or_else(|| Fail::new(msg))`. -/
def contextOption {T : Type} (o : Option T) (msg : String) : Except Fail T :=
  match o with
  | some t => .ok t
  | none => .error (Fail.new msg)

/-- `impl<T> FailExt<T> for Result<T, Fail>`: `self.map_err(|fail| fail.add_msg(msg))`. -/
def contextResultFail {T : Type} (r : Except Fail T) (msg : String) : Except Fail T :=
  match r with
  | .ok t => .ok t
  | .error fail => .error (fail.add_msg msg)

/-- A `Fail` carrying at least one of a message and a cause (the
zero-information state `msg = None, cause = None` excluded). -/
def Fail.nonEmpty (f : Fail) : Bool :=
  f.msg.isSome || f.cause.isSome

/-- Attach a list of messages in order by repeated `add_msg`. -/
def Fail.addMsgs (f : Fail) (msgs : List String) : Fail :=
  msgs.foldl Fail.add_msg f

/-- Repeated `context` calls on a `Result<T, Fail>`, one per message, in order. -/
def contextMany {T : Type} (r : Except Fail T) (msgs : List String) : Except Fail T :=
  msgs.foldl contextResultFail r

/-- The rendering the spec predicts for a chain: messages newest first,
separated by `": "`, root text last. -/
def chainRender (msgs : List String) (t : String) : String :=
  msgs.foldl (fun acc m => m ++ ": " ++ acc) t

/-- The error of a `Result<T, Fail>`, when present, is non-empty. -/
def exceptNonEmpty {T : Type} : Except Fail T → Bool
  | .ok _ => true
  | .error f => f.nonEmpty

theorem add_msg_render (F : Fail) (m : String) (h : F.nonEmpty = true) :
    (F.add_msg m).render = m ++ ": " ++ F.render := by
  obtain ⟨msg, cause⟩ := F
  cases msg with
  | some s =>
    cases cause with
    | none => simp [Fail.add_msg, Fail.render, String.append_empty, String.append_assoc]
    | some c => cases c <;> rfl
  | none =>
    cases cause with
    | none => simp [Fail.nonEmpty, Fail.msg, Fail.cause] at h
    | some c => cases c <;> rfl

theorem add_msg_nonEmpty (F : Fail) (m : String) : (F.add_msg m).nonEmpty = true := by
  obtain ⟨msg, cause⟩ := F
  cases msg <;> rfl

/-- Claim C1: `Fail::add_msg` is asymmetric: when `F.msg` is `None` the result is
`Fail { msg: Some(m), cause: F.cause }` with chain depth unchanged; otherwise
the result is `Fail { msg: Some(m), cause: Some(FailCause::Fail(F)) }`,
wrapping the whole prior value as the new cause, with depth increased by
exactly one. -/
theorem add_msg_asymmetric (F : Fail) (m : String) :
    (F.msg = none →
      F.add_msg m = Fail.mk (some m) F.cause ∧ (F.add_msg m).depth = F.depth) ∧
    (F.msg ≠ none →
      F.add_msg m = Fail.mk (some m) (some (FailCause.Fail F)) ∧
        (F.add_msg m).depth = F.depth + 1) := by
  obtain ⟨msg, cause⟩ := F
  cases msg with
  | none =>
    refine ⟨fun _ => ⟨rfl, ?_⟩, fun h => absurd rfl h⟩
    cases cause with
    | none => rfl
    | some c => cases c <;> rfl
  | some s =>
    refine ⟨fun h => ?_, fun _ => ⟨rfl, rfl⟩⟩
    simp [Fail.msg] at h

/-- Witness for C1 at a concrete input on each branch of the asymmetry. -/
theorem add_msg_asymmetric_witness :
    (Fail.fromError "file not found").add_msg "failed to open input"
        = Fail.mk (some "failed to open input") (some (FailCause.Error "file not found"))
      ∧ (Fail.new "a").add_msg "b"
        = Fail.mk (some "b") (some (FailCause.Fail (Fail.new "a"))) :=
  ⟨((add_msg_asymmetric (Fail.fromError "file not found") "failed to open input").1 rfl).1,
   ((add_msg_asymmetric (Fail.new "a") "b").2 (by simp [Fail.new, Fail.msg])).1⟩

/-- Claim C2: the `Display` rendering of `Fail` writes the message if present,
writes the single separator `": "` exactly when both a message and a cause
are present, and then writes the cause's rendering (a boxed foreign error by
its own text, a nested `Fail` recursively); a cause with no message renders
as exactly the cause's text with no leading separator. -/
theorem display_rendering_rule (m e : String) (g : Fail) :
    Fail.render (.mk (some m) none) = m
      ∧ Fail.render (.mk (some m) (some (FailCause.Error e))) = m ++ ": " ++ e
      ∧ Fail.render (.mk (some m) (some (FailCause.Fail g))) = m ++ ": " ++ g.render
      ∧ Fail.render (.mk none (some (FailCause.Error e))) = e
      ∧ Fail.render (.mk none (some (FailCause.Fail g))) = g.render
      ∧ Fail.render (.mk none none) = "" := by
  refine ⟨?_, rfl, rfl, rfl, rfl, rfl⟩
  simp [Fail.render, String.append_empty]

/-- Claim C3: attaching messages `m1..mn` in order to a non-empty base failure by
repeated `context` calls on `Result<T, Fail>` applies `add_msg` for each, and
the resulting failure renders as `mn: ...: m1: t` where `t` is the base
failure's rendering — newest message first, root text last. -/
theorem context_chain_render {T : Type} (F : Fail) (msgs : List String)
    (h : F.nonEmpty = true) :
    contextMany (T := T) (Except.error F) msgs = Except.error (F.addMsgs msgs)
      ∧ (F.addMsgs msgs).render = chainRender msgs F.render := by
  induction msgs generalizing F with
  | nil => exact ⟨rfl, rfl⟩
  | cons m ms ih =>
    obtain ⟨h1, h2⟩ := ih (F.add_msg m) (add_msg_nonEmpty F m)
    refine ⟨h1, ?_⟩
    show ((F.add_msg m).addMsgs ms).render = chainRender ms (m ++ ": " ++ F.render)
    rw [h2, add_msg_render F m h]

/-- Witness for C3: two messages attached to a converted foreign error. -/
theorem context_chain_render_witness :
    Fail.nonEmpty (Fail.fromError "file not found") = true
      ∧ (contextMany (T := Unit) (Except.error (Fail.fromError "file not found"))
            ["failed to open input", "failed to load profile"]
          = Except.error ((Fail.fromError "file not found").addMsgs
              ["failed to open input", "failed to load profile"])
        ∧ ((Fail.fromError "file not found").addMsgs
              ["failed to open input", "failed to load profile"]).render
          = chainRender ["failed to open input", "failed to load profile"]
              (Fail.fromError "file not found").render) :=
  ⟨by decide,
   context_chain_render (Fail.fromError "file not found")
     ["failed to open input", "failed to load profile"] (by decide)⟩

/-- Claim C4: `context` on `Result<T, E>` builds
`Fail { msg: Some(m), cause: Some(FailCause::Error(e)) }` in one step on an
error, and on every input it agrees with the two-step path of converting the
foreign error via `From` and then attaching the message via `add_msg`. -/
theorem context_err_one_step (e m : String) {T : Type} (r : Except String T) :
    contextResultErr (T := T) (Except.error e) m
        = Except.error (Fail.mk (some m) (some (FailCause.Error e)))
      ∧ (Fail.fromError e).add_msg m = Fail.mk (some m) (some (FailCause.Error e))
      ∧ contextResultErr r m = contextResultFail (r.mapError Fail.fromError) m := by
  refine ⟨rfl, rfl, ?_⟩
  cases r <;> rfl

/-- Claim C5: `context` on a present input — `Ok` of either `Result` shape or
`Some` of `Option` — returns the contained value unchanged as `Ok`. -/
theorem context_present_passthrough {T : Type} (t : T) (m : String) :
    contextResultErr (Except.ok t) m = Except.ok t
      ∧ contextOption (some t) m = Except.ok t
      ∧ contextResultFail (Except.ok t) m = Except.ok t :=
  ⟨rfl, rfl, rfl⟩

/-- Claim C6: the `From` conversion of a foreign error is total, produces
`Fail { msg: None, cause: Some(FailCause::Error(e)) }`, and rendering the
converted `Fail` gives exactly the error's own text with no prefix. -/
theorem from_error_conversion (e : String) :
    Fail.fromError e = Fail.mk none (some (FailCause.Error e))
      ∧ (Fail.fromError e).render = e :=
  ⟨rfl, rfl⟩

/-- Claim C7: `context(m)` on `Option::None` returns `Err(Fail::new(m))`, a `Fail`
with `msg = Some(m)` and `cause = None`, which renders as exactly `m`. -/
theorem context_option_none {T : Type} (m : String) :
    contextOption (T := T) none m = Except.error (Fail.new m)
      ∧ Fail.new m = Fail.mk (some m) none
      ∧ (Fail.new m).render = m := by
  refine ⟨rfl, rfl, ?_⟩
  simp [Fail.new, Fail.render, String.append_empty]

/-- Claim C8: every `Fail` produced by a public path — `Fail::new`, the `From`
conversion, `add_msg`, or the error side of any of the three `context`
implementations — has at least one of `msg` and `cause` set. -/
theorem public_paths_nonEmpty {T : Type} (m e : String) (f : Fail)
    (r1 : Except String T) (o : Option T) (r2 : Except Fail T) :
    (Fail.new m).nonEmpty = true
      ∧ (Fail.fromError e).nonEmpty = true
      ∧ (f.add_msg m).nonEmpty = true
      ∧ exceptNonEmpty (contextResultErr r1 m) = true
      ∧ exceptNonEmpty (contextOption o m) = true
      ∧ exceptNonEmpty (contextResultFail r2 m) = true := by
  refine ⟨rfl, rfl, add_msg_nonEmpty f m, ?_, ?_, ?_⟩
  · cases r1 <;> rfl
  · cases o <;> rfl
  · cases r2 with
    | ok t => rfl
    | error g => exact add_msg_nonEmpty g m

/-- Claim C9: the `Display` rendering of `Error(f)` equals the rendering of `f`,
for every wrapped `Fail` at every chain depth. -/
theorem error_render_delegates (f : Fail) : (Error.mk f).render = f.render :=
  rfl

/-- Claim C10: `as_fail` returns exactly the wrapped `Fail` and `into_fail`
extracts it unchanged: wrapping then extracting is the identity. -/
theorem error_wrap_extract_identity (f : Fail) :
    (Error.mk f).as_fail = f ∧ (Error.mk f).into_fail = f :=
  ⟨rfl, rfl⟩

end TinyFail
